import Mathlib

set_option maxRecDepth 100000

/-
Verification of the Confluence client (`atlassian/confluence.py`), centred on
the PDF export-job poller `get_pdf_download_url_for_confluence_cloud`
(lines 1199-1245) and the idempotent update path `update_page` /
`is_page_content_is_already_updated` (lines 689-758).

Python strings are embedded as `List Char` (`PyStr`); the string
operations the code uses — `str.split(sep)` with a non-empty separator,
`str.strip()`, substring membership — are defined below with structural
recursion so that the kernel can evaluate them on concrete inputs.

The HTTP collaborator (`self.get`, `self.put`, inherited from
`AtlassianRestAPI`, outside this repository) is modelled as an environment
supplying the decoded body of each request; a body of `none` models a raw
payload on which the strict UTF-8 decode `response.decode(encoding='utf-8',
errors='strict')` raises `UnicodeDecodeError`.
-/

namespace AtlassianConfluence

/-- A Python string, embedded as its list of characters. -/
abbrev PyStr := List Char

/-- Coerce a Lean string literal to the embedding. -/
def pyLit (s : String) : PyStr := s.data

/-- Removal of `sep` from the front of `s`: `stripLeading sep s = some rem`
exactly when `s = sep ++ rem`. -/
def stripLeading : PyStr → PyStr → Option PyStr
  | [], s => some s
  | _ :: _, [] => none
  | c :: cs, d :: ds => if c = d then stripLeading cs ds else none

/-- Worker for `pySplit`.  `acc` holds the characters of the current chunk in
reverse.  The fuel only bounds the recursion; with fuel `≥ s.length + 1` it is
never exhausted, and when the separator never occurs the result does not
depend on the fuel at all. -/
def pySplitAux (sep : PyStr) : Nat → PyStr → PyStr → List PyStr
  | 0, acc, rest => [acc.reverse ++ rest]
  | fuel + 1, acc, s =>
    match s with
    | [] => [acc.reverse]
    | c :: rest =>
      match stripLeading sep s with
      | some rem => acc.reverse :: pySplitAux sep fuel [] rem
      | none => pySplitAux sep fuel (c :: acc) rest

/-- Python `s.split(sep)` for a non-empty separator `sep`: split on each
non-overlapping occurrence of `sep`, scanning left to right.  (Python raises
`ValueError` on an empty separator; every separator in the code under study
is a non-empty literal, and the `[s]` default is never exercised.) -/
def pySplit (sep s : PyStr) : List PyStr :=
  if sep = [] then [s] else pySplitAux sep (s.length + 1) [] s

/-- ASCII whitespace, as stripped by Python `str.strip()`.  (Python also
strips some further Unicode whitespace; none of it can occur around the
ASCII status tags this code compares against.) -/
def isPyWhitespace (c : Char) : Bool :=
  c = ' ' || c = '\t' || c = '\n' || c = '\r' || c = '\x0b' || c = '\x0c'

/-- Python `s.strip()`: remove whitespace from both ends. -/
def pyStrip (s : PyStr) : PyStr :=
  ((s.dropWhile isPyWhitespace).reverse.dropWhile isPyWhitespace).reverse

/- ### Constants of `get_pdf_download_url_for_confluence_cloud` (source lines
1209-1245), kept verbatim from the source. -/

/-- Marker locating the task id in the initiating response (line 1216). -/
def taskIdMarker : PyStr := pyLit "name=\"ajs-taskId\" content=\""

/-- Closing delimiter of the task id (line 1216). -/
def taskIdCloseMarker : PyStr := pyLit "\">"

/-- The status document is split on newline (line 1221). -/
def newlineSep : PyStr := pyLit "\n"

/-- Completion tag compared against line 8 of the split (line 1228). -/
def completeTrueTag : PyStr := pyLit "<isComplete>true</isComplete>"

/-- Success tag compared against line 7 of the split (line 1229). -/
def successfulTrueTag : PyStr := pyLit "<isSuccessful>true</isSuccessful>"

/-- Failure tag compared against line 7 of the split (line 1236). -/
def successfulFalseTag : PyStr := pyLit "<isSuccessful>false</isSuccessful>"

/-- Marker opening the download path inside line 3 of the split (line 1234). -/
def hrefMarker : PyStr := pyLit "href=&quot;/wiki/"

/-- Delimiter closing the download path (line 1234). -/
def quotMarker : PyStr := pyLit "&quot"

/-- Fixed prefix of the poll URL (line 1217). -/
def pollUrlPrefix : PyStr := pyLit "runningtaskxml.action?taskId="

/-- Line 1216: `response_string.split('name="ajs-taskId" content="')[1].split('">')[0]`.
`none` models the `IndexError` raised by the `[1]` access when the marker
does not occur in the initiating response body. -/
def extract_task_id (response_string : PyStr) : Option PyStr :=
  ((pySplit taskIdMarker response_string).get? 1).map
    (fun rest => (pySplit taskIdCloseMarker rest).headD [])

/-- Line 1217: `'runningtaskxml.action?taskId={0}'.format(task_id)`. -/
def build_poll_url (task_id : PyStr) : PyStr :=
  pollUrlPrefix ++ task_id

/-- What a single loop iteration decides after its status document has been
decoded (body of the `while` loop, lines 1220-1240). -/
inductive StepOut where
  /-- Lines 1233-1235: `download_url` is set and `long_running_task` cleared,
  so the loop exits and the function returns this path. -/
  | resolvedPath (p : PyStr)
  /-- The iteration makes the call return `None`: either line 1238
  (`isSuccessful` reported `false`) or an `IndexError` caught at line 1241. -/
  | resolvedFailure
  /-- No branch resolved; the loop polls again. -/
  | next
deriving DecidableEq

/-- Outcome of one iteration together with the number of times the fixed
5-second delay of line 1226 was incurred during it (0 or 1). -/
structure IterEffect where
  out : StepOut
  sleeps : Nat
deriving DecidableEq

/-- One iteration of the polling loop on an already decoded status document
`t` (lines 1220-1240).  The accesses `parts[6]`, `parts[7]`, `parts[8]`
(lines 1222-1224) raise `IndexError` exactly when the split has fewer than 9
lines; the error is caught at line 1241 and yields `None` — and it is raised
before the `time.sleep(5)` of line 1226, so such an iteration does not sleep.
When the accesses succeed the iteration sleeps once, unconditionally, before
the completion check of line 1228. -/
def pollStep (t : PyStr) : IterEffect :=
  let parts := pySplit newlineSep t
  if 9 ≤ parts.length then
    -- parts[6].strip() is `percentage_complete`, only ever logged.
    let is_successful := pyStrip (parts.getD 7 [])
    let is_complete := pyStrip (parts.getD 8 [])
    if is_complete = completeTrueTag then
      if is_successful = successfulTrueTag then
        -- line 1234: current_status.split('href=&quot;/wiki/')[1].split('&quot')[0]
        match (pySplit hrefMarker (parts.getD 3 [])).get? 1 with
        | some rest => ⟨.resolvedPath ((pySplit quotMarker rest).headD []), 1⟩
        | none => ⟨.resolvedFailure, 1⟩
      else if is_successful = successfulFalseTag then ⟨.resolvedFailure, 1⟩
      else ⟨.next, 1⟩
    else ⟨.next, 1⟩
  else ⟨.resolvedFailure, 0⟩

/-- Result of a run of `get_pdf_download_url_for_confluence_cloud`. -/
inductive PollerOutcome where
  /-- The function returns the download path string (line 1245). -/
  | path (p : PyStr)
  /-- The function returns `None` (line 1238 or line 1243). -/
  | noResult
  /-- A strict-decode failure (`UnicodeDecodeError` from line 1215 or 1220)
  propagates to the caller: only `IndexError` is caught at line 1241. -/
  | decodeRaised
  /-- The loop has not resolved within the given iteration budget. -/
  | stillPolling
deriving DecidableEq

/-- A run of the routine: its outcome, how many poll requests it issued, and
how many times it incurred the fixed 5-second delay. -/
structure RunTrace where
  outcome : PollerOutcome
  polls : Nat
  sleeps : Nat
deriving DecidableEq

/-- The `while long_running_task` loop (lines 1218-1240).  `poll i` is the
decoded body of the i-th poll request (`none` = strict decode raises).
`fuel` bounds the number of iterations; an unresolved run is reported as
`stillPolling` rather than looping forever. -/
def pollLoop (poll : Nat → Option PyStr) : Nat → Nat → RunTrace
  | _, 0 => ⟨.stillPolling, 0, 0⟩
  | i, fuel + 1 =>
    match poll i with
    | none => ⟨.decodeRaised, 1, 0⟩
    | some t =>
      let st := pollStep t
      match st.out with
      | .resolvedPath p => ⟨.path p, 1, st.sleeps⟩
      | .resolvedFailure => ⟨.noResult, 1, st.sleeps⟩
      | .next =>
        let r := pollLoop poll (i + 1) fuel
        ⟨r.outcome, r.polls + 1, r.sleeps + st.sleeps⟩

/-- The collaborators of one call: the decoded body of the initiating GET
(line 1214-1215), and for each poll URL the decoded body of the i-th poll GET
to it (lines 1219-1221).  `none` models a body that the strict UTF-8 decode
rejects. -/
structure PdfExportEnv where
  initResponse : Option PyStr
  pollResponse : PyStr → Nat → Option PyStr

/-- The routine `get_pdf_download_url_for_confluence_cloud` (lines 1199-1245) over an
environment of decoded responses.  The `except IndexError` of line 1241 is
reflected inside `extract_task_id` and `pollStep`: every `IndexError` the
body can raise becomes `noResult`.  No handler exists for decode errors, so
those surface as `decodeRaised`. -/
def get_pdf_download_url_for_confluence_cloud (env : PdfExportEnv) (fuel : Nat) : RunTrace :=
  match env.initResponse with
  | none => ⟨.decodeRaised, 0, 0⟩
  | some response_string =>
    match extract_task_id response_string with
    | none => ⟨.noResult, 0, 0⟩
    | some task_id =>
      pollLoop (env.pollResponse (build_poll_url task_id)) 0 fuel

/-- Modelled from the spec (§4.1, §6): the per-iteration decision expressed
on the named positional fields of the status document — line 3 (the status
line carrying the embedded `href`), line 6 (`percentComplete`, display only),
line 7 (`isSuccessful`), line 8 (`isComplete`) — to be compared with
`pollStep`, which is translated from the source and indexes the split
directly. -/
def statusDecision (line3 _percentComplete isSuccessful isComplete : PyStr) : IterEffect :=
  if isComplete = completeTrueTag then
    if isSuccessful = successfulTrueTag then
      match (pySplit hrefMarker line3).get? 1 with
      | some rest => ⟨.resolvedPath ((pySplit quotMarker rest).headD []), 1⟩
      | none => ⟨.resolvedFailure, 1⟩
    else if isSuccessful = successfulFalseTag then ⟨.resolvedFailure, 1⟩
    else ⟨.next, 1⟩
  else ⟨.next, 1⟩

/- ### Concrete data for witnesses and counterexamples. -/

/-- An initiating response carrying task id `12345`. -/
def initBody : PyStr :=
  pyLit "<meta name=\"ajs-taskId\" content=\"12345\">rest"

/-- A complete, successful status document whose line 3 carries
`href=&quot;/wiki/reports/x.pdf&quot;`. -/
def goodDoc : PyStr :=
  pyLit "<h>\n<b>\n<d>\n<a href=&quot;/wiki/reports/x.pdf&quot;>get</a>\n<x>\n<y>\n<p>100</p>\n<isSuccessful>true</isSuccessful>\n<isComplete>true</isComplete>"

/-- A status document still reporting `isComplete=false`. -/
def runningDoc : PyStr :=
  pyLit "<h>\n<b>\n<d>\n<s>\n<x>\n<y>\n<p>40</p>\n<isSuccessful>false</isSuccessful>\n<isComplete>false</isComplete>"

/-- A complete status document reporting `isSuccessful=false`. -/
def failedDoc : PyStr :=
  pyLit "<h>\n<b>\n<d>\n<s>\n<x>\n<y>\n<p>100</p>\n<isSuccessful>false</isSuccessful>\n<isComplete>true</isComplete>"

/-- A complete status document whose `isSuccessful` line is neither the
`true` nor the `false` tag. -/
def unknownDoc : PyStr :=
  pyLit "<h>\n<b>\n<d>\n<s>\n<x>\n<y>\n<p>100</p>\n<isSuccessful>pending</isSuccessful>\n<isComplete>true</isComplete>"

/-- A status document with fewer than 9 lines. -/
def shortDoc : PyStr := pyLit "<h>\n<b>"

/-- A complete, successful status document whose line 3 contains the
substring `href=&quot;/wiki/reports/x.pdf&quot;` — but only after an earlier
occurrence of the `href=&quot;/wiki/` marker. -/
def twoHrefDoc : PyStr :=
  pyLit "<h>\n<b>\n<d>\nhref=&quot;/wiki/a.pdf&quot; href=&quot;/wiki/reports/x.pdf&quot;\n<x>\n<y>\n<p>100</p>\n<isSuccessful>true</isSuccessful>\n<isComplete>true</isComplete>"

/-- Environment whose initiating response decodes and whose every poll
returns `goodDoc`. -/
def envGood : PdfExportEnv := ⟨some initBody, fun _ _ => some goodDoc⟩

/-- Environment whose initiating response body fails the strict decode. -/
def envInitDecodeFails : PdfExportEnv := ⟨none, fun _ _ => none⟩

/-- Environment whose initiating response body lacks the `ajs-taskId`
marker. -/
def envNoMarker : PdfExportEnv := ⟨some (pyLit "<html>no task here</html>"), fun _ _ => some goodDoc⟩

/-- Environment whose first poll body fails the strict decode. -/
def envPollDecodeFails : PdfExportEnv := ⟨some initBody, fun _ _ => none⟩

/-- Environment whose polls return a short (truncated) status document. -/
def envShortDoc : PdfExportEnv := ⟨some initBody, fun _ _ => some shortDoc⟩

/-- Environment whose polls report a server-side export failure. -/
def envFailedDoc : PdfExportEnv := ⟨some initBody, fun _ _ => some failedDoc⟩

/-- Environment whose polls report complete with an unrecognized
`isSuccessful` value, forever. -/
def envUnknownDoc : PdfExportEnv := ⟨some initBody, fun _ _ => some unknownDoc⟩

/-- Environment whose polls return `twoHrefDoc`. -/
def envTwoHref : PdfExportEnv := ⟨some initBody, fun _ _ => some twoHrefDoc⟩

/-- Environment reporting not-complete on polls 0 and 1, then complete and
successful on poll 2. -/
def envRunTwice : PdfExportEnv :=
  ⟨some initBody, fun _ i => if i < 2 then some runningDoc else some goodDoc⟩

/- ### `update_page` and `is_page_content_is_already_updated`
(source lines 689-758). -/

/-- Python exceptions relevant to the modelled code paths of `update_page`. -/
inductive PyErr where
  | indexError
  | typeError
  | keyError
  | attributeError
  | valueError
deriving DecidableEq

/-- A JSON value, as returned by the HTTP collaborator's response parsing. -/
inductive JVal where
  | null
  | b (bb : Bool)
  | num (n : Int)
  | str (s : String)
  | arr (xs : List JVal)
  | obj (fields : List (String × JVal))

/-- Python truthiness of a JSON value. -/
def truthy : JVal → Bool
  | .null => false
  | .b bb => bb
  | .num n => !(n == 0)
  | .str s => !(s == "")
  | .arr xs => !xs.isEmpty
  | .obj fs => !fs.isEmpty

/-- Python `x or {}`: `x` itself when truthy, the empty dict otherwise. -/
def pyOr (j : JVal) : JVal := if truthy j then j else .obj []

/-- Python `x.get(k)` for a string key: `None` when the key is absent,
`AttributeError` when `x` is not a dict. -/
def jGet (j : JVal) (k : String) : Except PyErr JVal :=
  match j with
  | .obj fs => .ok ((List.lookup k fs).getD .null)
  | _ => .error .attributeError

/-- Python `x[k]` for a string key: `KeyError` when the key is absent from a
dict, `TypeError` when `x` does not support string subscripts. -/
def subscr (j : JVal) (k : String) : Except PyErr JVal :=
  match j with
  | .obj fs =>
    match List.lookup k fs with
    | some v => .ok v
    | none => .error .keyError
  | _ => .error .typeError

/-- Python `x + 1`: defined for numbers (and bools, which are ints);
`TypeError` otherwise. -/
def plusOne (j : JVal) : Except PyErr Int :=
  match j with
  | .num n => .ok (n + 1)
  | .b bb => .ok ((if bb then (1 : Int) else 0) + 1)
  | _ => .error .typeError

/-- The collaborators `update_page` talks to, keyed by page id: the page
fetched with `expand='body.storage'` (line 696), the page fetched plain
(line 737), the history document (line 740), and `utils.symbol_normalizer`
(module `atlassian.utils`, whose source is not part of this repository). -/
structure ConfluenceEnv where
  pageWithStorage : String → JVal
  pageById : String → JVal
  historyOf : String → JVal
  normalizer : String → String

/-- On the string storage value the code applies `utils.symbol_normalizer`
(line 701); a truthy non-string value is left unchanged, as it compares
unequal to the candidate string body under Python `==` in any case. -/
def normalizeValue (f : String → String) : JVal → JVal
  | .str s => .str (f s)
  | v => v

/-- The method `is_page_content_is_already_updated` (lines 689-711):
`confluence_content = (((get_page_by_id(page_id, expand='body.storage') or
{}).get('body') or {}).get('storage') or {}).get('value')`, normalized when
truthy, then compared with `body` under Python `==`. -/
def is_page_content_is_already_updated (env : ConfluenceEnv) (page_id body : String) :
    Except PyErr Bool :=
  match jGet (pyOr (env.pageWithStorage page_id)) "body" with
  | .error e => .error e
  | .ok v1 =>
    match jGet (pyOr v1) "storage" with
    | .error e => .error e
    | .ok v2 =>
      match jGet (pyOr v2) "value" with
      | .error e => .error e
      | .ok cc =>
        let cc2 := if truthy cc then normalizeValue env.normalizer cc else cc
        .ok (match cc2 with
             | .str s => s == body
             | _ => false)

/-- The `value` field reached by the unwrapping chain of lines 696-698, when
every step goes through a dict. -/
def storedStorageValue (env : ConfluenceEnv) (page_id : String) : Option JVal :=
  match jGet (pyOr (env.pageWithStorage page_id)) "body" with
  | .error _ => none
  | .ok v1 =>
    match jGet (pyOr v1) "storage" with
    | .error _ => none
    | .ok v2 =>
      match jGet (pyOr v2) "value" with
      | .error _ => none
      | .ok cc => some cc

/-- The static method `Confluence._create_body` (lines 26-35): rejects an unknown
representation with `ValueError`, otherwise wraps the body. -/
def create_body (body representation : String) : Except PyErr JVal :=
  if representation ∈ ["editor", "export_view", "view", "storage", "wiki"] then
    .ok (.obj [(representation, .obj [("value", .str body), ("representation", .str representation)])])
  else
    .error .valueError

/-- Result of a call to `update_page`. -/
inductive UpdateResult where
  /-- Line 737: the content is already up to date — the current page is
  returned and no PUT request is issued. -/
  | noWrite (page : JVal)
  /-- Lines 741-744: the version lookup raised a caught
  `IndexError`/`TypeError` and the function returns `None`. -/
  | noneResult
  /-- Line 758: `self.put('rest/api/content/{0}'.format(page_id), data)`
  is issued with this URL and payload. -/
  | putRequest (url : String) (data : JVal)
  /-- An exception no handler covers propagates to the caller. -/
  | raised (e : PyErr)

/-- The method `update_page` (lines 720-758).  The version computation
`self.history(page_id)['lastUpdated']['number'] + 1` sits in a
`try ... except (IndexError, TypeError)` returning `None`; other exceptions
(for example `KeyError` from a missing field) propagate. -/
def update_page (env : ConfluenceEnv) (page_id title body : String)
    (parent_id : Option String) (tp representation : String) (minor_edit : Bool) :
    UpdateResult :=
  match is_page_content_is_already_updated env page_id body with
  | .error e => .raised e
  | .ok true => .noWrite (env.pageById page_id)
  | .ok false =>
    let ver : Except PyErr Int :=
      match subscr (env.historyOf page_id) "lastUpdated" with
      | .error e => .error e
      | .ok lu =>
        match subscr lu "number" with
        | .error e => .error e
        | .ok n => plusOne n
    match ver with
    | .error .indexError => .noneResult
    | .error .typeError => .noneResult
    | .error e => .raised e
    | .ok version =>
      match create_body body representation with
      | .error e => .raised e
      | .ok bodyJ =>
        let base := [("id", JVal.str page_id), ("type", JVal.str tp),
                     ("title", JVal.str title), ("body", bodyJ),
                     ("version", JVal.obj [("number", JVal.num version),
                                           ("minorEdit", JVal.b minor_edit)])]
        let data := JVal.obj (base ++
          (match parent_id with
           | some pid => [("ancestors", JVal.arr [JVal.obj [("type", JVal.str "page"), ("id", JVal.str pid)]])]
           | none => []))
        .putRequest ("rest/api/content/" ++ page_id) data

/-- A concrete environment whose page `42` stores exactly the candidate
body. -/
def cEnvSame : ConfluenceEnv where
  pageWithStorage := fun _ => .obj [("body", .obj [("storage", .obj [("value", .str "<p>hello</p>")])])]
  pageById := fun pid => .obj [("id", .str pid), ("title", .str "T")]
  historyOf := fun _ => .obj [("lastUpdated", .obj [("number", .num 3)])]
  normalizer := fun s => s

end AtlassianConfluence

namespace AtlassianConfluence

/- ### Basic lemmas about the embedded string operations. -/

lemma stripLeading_eq_some {sep s rem : PyStr} :
    stripLeading sep s = some rem ↔ s = sep ++ rem := by
  induction sep generalizing s with
  | nil => simp [stripLeading]
  | cons c cs ih =>
    cases s with
    | nil => simp [stripLeading]
    | cons d ds =>
      by_cases hc : c = d
      · subst hc
        simp [stripLeading, ih]
      · simp [stripLeading, hc]
        intro hdc
        exact absurd hdc.symm hc

lemma pySplitAux_no_match {sep : PyStr} :
    ∀ (fuel : Nat) (s acc : PyStr), (∀ l, l <:+ s → stripLeading sep l = none) →
      pySplitAux sep fuel acc s = [acc.reverse ++ s] := by
  intro fuel
  induction fuel with
  | zero => intro s acc _; rfl
  | succ f ih =>
    intro s acc hnone
    cases s with
    | nil => simp [pySplitAux]
    | cons c rest =>
      have h0 : stripLeading sep (c :: rest) = none := hnone _ (List.suffix_refl _)
      have hrec := ih rest (c :: acc)
        (fun l hl => hnone l (hl.trans (List.suffix_cons c rest)))
      simp [pySplitAux, h0, hrec]

lemma pySplit_of_no_occurrence {sep s : PyStr} (hsep : sep ≠ [])
    (h : ¬ sep <:+: s) : pySplit sep s = [s] := by
  unfold pySplit
  rw [if_neg hsep]
  have hnone : ∀ l, l <:+ s → stripLeading sep l = none := by
    intro l hl
    cases heq : stripLeading sep l with
    | none => rfl
    | some rem =>
      exfalso
      apply h
      have hpre : l = sep ++ rem := stripLeading_eq_some.mp heq
      obtain ⟨u, hu⟩ := hl
      exact ⟨u, rem, by rw [List.append_assoc, ← hpre, hu]⟩
  rw [pySplitAux_no_match (s.length + 1) s [] hnone]
  rfl

lemma extract_task_id_of_no_occurrence {rs : PyStr} (h : ¬ taskIdMarker <:+: rs) :
    extract_task_id rs = none := by
  unfold extract_task_id
  rw [pySplit_of_no_occurrence (by decide) h]
  rfl

/- ### Iteration lemmas for the polling loop. -/

lemma pollStep_short {t : PyStr} (h : (pySplit newlineSep t).length < 9) :
    pollStep t = ⟨.resolvedFailure, 0⟩ := by
  simp only [pollStep]
  rw [if_neg (by omega)]

lemma pollStep_notComplete {t : PyStr} (h9 : 9 ≤ (pySplit newlineSep t).length)
    (h8 : pyStrip ((pySplit newlineSep t).getD 8 []) ≠ completeTrueTag) :
    pollStep t = ⟨.next, 1⟩ := by
  simp only [pollStep]
  rw [if_pos h9, if_neg h8]

lemma pollStep_serverFailed {t : PyStr} (h9 : 9 ≤ (pySplit newlineSep t).length)
    (h8 : pyStrip ((pySplit newlineSep t).getD 8 []) = completeTrueTag)
    (h7 : pyStrip ((pySplit newlineSep t).getD 7 []) = successfulFalseTag) :
    pollStep t = ⟨.resolvedFailure, 1⟩ := by
  simp only [pollStep]
  rw [if_pos h9, h8, if_pos rfl, h7]
  rw [if_neg (by decide), if_pos rfl]

lemma pollStep_success {t : PyStr} {p : PyStr} (h9 : 9 ≤ (pySplit newlineSep t).length)
    (h8 : pyStrip ((pySplit newlineSep t).getD 8 []) = completeTrueTag)
    (h7 : pyStrip ((pySplit newlineSep t).getD 7 []) = successfulTrueTag)
    (hp : ((pySplit hrefMarker ((pySplit newlineSep t).getD 3 [])).get? 1).map
            (fun r => (pySplit quotMarker r).headD []) = some p) :
    pollStep t = ⟨.resolvedPath p, 1⟩ := by
  obtain ⟨rest, hrest, hpath⟩ := Option.map_eq_some'.mp hp
  simp only [pollStep]
  rw [if_pos h9, h8, if_pos rfl, h7, if_pos rfl, hrest]
  simpa using hpath

lemma pollStep_unknownSuccess {t : PyStr} (h9 : 9 ≤ (pySplit newlineSep t).length)
    (h8 : pyStrip ((pySplit newlineSep t).getD 8 []) = completeTrueTag)
    (h7t : pyStrip ((pySplit newlineSep t).getD 7 []) ≠ successfulTrueTag)
    (h7f : pyStrip ((pySplit newlineSep t).getD 7 []) ≠ successfulFalseTag) :
    pollStep t = ⟨.next, 1⟩ := by
  simp only [pollStep]
  rw [if_pos h9, h8, if_pos rfl, if_neg h7t, if_neg h7f]

lemma pollStep_sleeps_of_len {t : PyStr} (h9 : 9 ≤ (pySplit newlineSep t).length) :
    (pollStep t).sleeps = 1 := by
  simp only [pollStep]
  rw [if_pos h9]
  split
  · split
    · split <;> rfl
    · split <;> rfl
  · rfl

/- ### Unfolding lemmas for the loop and the enclosing routine. -/

lemma pollLoop_zero (poll : Nat → Option PyStr) (i : Nat) :
    pollLoop poll i 0 = ⟨.stillPolling, 0, 0⟩ := rfl

lemma pollLoop_decodeFail {poll : Nat → Option PyStr} {i : Nat} (fuel : Nat)
    (h : poll i = none) : pollLoop poll i (fuel + 1) = ⟨.decodeRaised, 1, 0⟩ := by
  simp [pollLoop, h]

lemma pollLoop_resolvePath {poll : Nat → Option PyStr} {i : Nat} {t p : PyStr} {n : Nat}
    (fuel : Nat) (h : poll i = some t) (hs : pollStep t = ⟨.resolvedPath p, n⟩) :
    pollLoop poll i (fuel + 1) = ⟨.path p, 1, n⟩ := by
  simp [pollLoop, h, hs]

lemma pollLoop_resolveFailure {poll : Nat → Option PyStr} {i : Nat} {t : PyStr} {n : Nat}
    (fuel : Nat) (h : poll i = some t) (hs : pollStep t = ⟨.resolvedFailure, n⟩) :
    pollLoop poll i (fuel + 1) = ⟨.noResult, 1, n⟩ := by
  simp [pollLoop, h, hs]

lemma pollLoop_next {poll : Nat → Option PyStr} {i : Nat} {t : PyStr} {n : Nat}
    (fuel : Nat) (h : poll i = some t) (hs : pollStep t = ⟨.next, n⟩) :
    pollLoop poll i (fuel + 1) =
      ⟨(pollLoop poll (i + 1) fuel).outcome,
       (pollLoop poll (i + 1) fuel).polls + 1,
       (pollLoop poll (i + 1) fuel).sleeps + n⟩ := by
  simp [pollLoop, h, hs]

lemma get_pdf_eq_pollLoop {env : PdfExportEnv} {rs tid : PyStr} (fuel : Nat)
    (h1 : env.initResponse = some rs) (h2 : extract_task_id rs = some tid) :
    get_pdf_download_url_for_confluence_cloud env fuel =
      pollLoop (env.pollResponse (build_poll_url tid)) 0 fuel := by
  simp [get_pdf_download_url_for_confluence_cloud, h1, h2]

/- ### Run-level lemmas. -/

/-- With `n` pending iterations and a path-resolving document at index `n`,
the loop stays unresolved for budgets `≤ n` and resolves with exactly `n + 1`
polls and sleeps for larger ones. -/
lemma pollLoop_pending_then_complete {poll : Nat → Option PyStr} {p : PyStr} :
    ∀ (n i : Nat),
      (∀ k, k < n → ∃ t, poll (i + k) = some t ∧ pollStep t = ⟨.next, 1⟩) →
      (∃ t, poll (i + n) = some t ∧ pollStep t = ⟨.resolvedPath p, 1⟩) →
      (∀ fuel, fuel ≤ n → pollLoop poll i fuel = ⟨.stillPolling, fuel, fuel⟩) ∧
      (∀ fuel, n < fuel → pollLoop poll i fuel = ⟨.path p, n + 1, n + 1⟩) := by
  intro n
  induction n with
  | zero =>
    intro i _ hfin
    obtain ⟨t, ht, hstep⟩ := hfin
    constructor
    · intro fuel hf
      interval_cases fuel
      exact pollLoop_zero poll i
    · intro fuel hf
      obtain ⟨f, rfl⟩ := Nat.exists_eq_add_of_lt hf
      rw [Nat.zero_add] at *
      exact pollLoop_resolvePath f ht hstep
  | succ n ih =>
    intro i hpend hfin
    obtain ⟨t0, ht0, hstep0⟩ := hpend 0 (Nat.succ_pos n)
    rw [Nat.add_zero] at ht0
    have hshift : ∀ k, k < n → ∃ t, poll (i + 1 + k) = some t ∧ pollStep t = ⟨.next, 1⟩ := by
      intro k hk
      have := hpend (k + 1) (by omega)
      have harith : i + (k + 1) = i + 1 + k := by omega
      rwa [harith] at this
    have hfin' : ∃ t, poll (i + 1 + n) = some t ∧ pollStep t = ⟨.resolvedPath p, 1⟩ := by
      have harith : i + (n + 1) = i + 1 + n := by omega
      rwa [harith] at hfin
    obtain ⟨ihstill, ihdone⟩ := ih (i + 1) hshift hfin'
    constructor
    · intro fuel hf
      cases fuel with
      | zero => exact pollLoop_zero poll i
      | succ f =>
        rw [pollLoop_next f ht0 hstep0, ihstill f (by omega)]
    · intro fuel hf
      obtain ⟨f, rfl⟩ : ∃ f, fuel = f + 1 := ⟨fuel - 1, by omega⟩
      rw [pollLoop_next f ht0 hstep0, ihdone f (by omega)]

/-- When every poll yields a document on which the iteration decides
nothing, the loop never resolves: it polls and sleeps once per unit of
budget and is still running afterwards. -/
lemma pollLoop_forever {poll : Nat → Option PyStr}
    (h : ∀ i, ∃ t, poll i = some t ∧ pollStep t = ⟨.next, 1⟩) :
    ∀ (fuel i : Nat), pollLoop poll i fuel = ⟨.stillPolling, fuel, fuel⟩ := by
  intro fuel
  induction fuel with
  | zero => intro i; exact pollLoop_zero poll i
  | succ f ih =>
    intro i
    obtain ⟨t, ht, hstep⟩ := h i
    rw [pollLoop_next f ht hstep, ih (i + 1)]

/- ### Claims. -/

/-- C1, counterexample: when the initiating response body fails the strict
decode, the routine does not return `None` — the decode error propagates to
the caller, because the handler at line 1241 catches only `IndexError`. -/
theorem pdf_poll_decode_error_not_caught_cex :
    get_pdf_download_url_for_confluence_cloud envInitDecodeFails 1 = ⟨.decodeRaised, 0, 0⟩ ∧
    (get_pdf_download_url_for_confluence_cloud envInitDecodeFails 1).outcome ≠ .noResult := by
  decide

/-- C1 (amended): only the `IndexError` cases — a received document missing
the expected markers or positional fields — are caught at the top of the
polling routine and converted to the terminal failure result `None`; a
received body that is not valid text under the strict UTF-8 decode raises an
error that the routine does not catch, at the initiating request and at
every poll alike. -/
theorem pdf_poll_only_index_errors_converted (env : PdfExportEnv) (fuel : Nat) :
    (env.initResponse = none →
      get_pdf_download_url_for_confluence_cloud env fuel = ⟨.decodeRaised, 0, 0⟩) ∧
    (∀ rs, env.initResponse = some rs → extract_task_id rs = none →
      get_pdf_download_url_for_confluence_cloud env fuel = ⟨.noResult, 0, 0⟩) ∧
    (∀ rs tid, env.initResponse = some rs → extract_task_id rs = some tid →
      env.pollResponse (build_poll_url tid) 0 = none → 0 < fuel →
      get_pdf_download_url_for_confluence_cloud env fuel = ⟨.decodeRaised, 1, 0⟩) ∧
    (∀ rs tid t, env.initResponse = some rs → extract_task_id rs = some tid →
      env.pollResponse (build_poll_url tid) 0 = some t →
      (pySplit newlineSep t).length < 9 → 0 < fuel →
      get_pdf_download_url_for_confluence_cloud env fuel = ⟨.noResult, 1, 0⟩) := by
  refine ⟨?_, ?_, ?_, ?_⟩
  · intro h
    simp [get_pdf_download_url_for_confluence_cloud, h]
  · intro rs h1 h2
    simp [get_pdf_download_url_for_confluence_cloud, h1, h2]
  · intro rs tid h1 h2 hp hf
    obtain ⟨f, rfl⟩ : ∃ f, fuel = f + 1 := ⟨fuel - 1, by omega⟩
    rw [get_pdf_eq_pollLoop (f + 1) h1 h2, pollLoop_decodeFail f hp]
  · intro rs tid t h1 h2 hp hlen hf
    obtain ⟨f, rfl⟩ : ∃ f, fuel = f + 1 := ⟨fuel - 1, by omega⟩
    rw [get_pdf_eq_pollLoop (f + 1) h1 h2,
        pollLoop_resolveFailure f hp (pollStep_short hlen)]

theorem pdf_poll_only_index_errors_converted_witness :
    get_pdf_download_url_for_confluence_cloud envInitDecodeFails 0 = ⟨.decodeRaised, 0, 0⟩ ∧
    get_pdf_download_url_for_confluence_cloud envNoMarker 0 = ⟨.noResult, 0, 0⟩ ∧
    get_pdf_download_url_for_confluence_cloud envPollDecodeFails 1 = ⟨.decodeRaised, 1, 0⟩ ∧
    get_pdf_download_url_for_confluence_cloud envShortDoc 1 = ⟨.noResult, 1, 0⟩ :=
  ⟨(pdf_poll_only_index_errors_converted envInitDecodeFails 0).1 rfl,
   (pdf_poll_only_index_errors_converted envNoMarker 0).2.1 _ rfl (by decide),
   (pdf_poll_only_index_errors_converted envPollDecodeFails 1).2.2.1 initBody (pyLit "12345")
     rfl (by decide) rfl (by decide),
   (pdf_poll_only_index_errors_converted envShortDoc 1).2.2.2 initBody (pyLit "12345") shortDoc
     rfl (by decide) rfl (by decide) (by decide)⟩

/-- C2, counterexample: a run that resolves on its very first poll
iteration still incurs the fixed delay — the `time.sleep(5)` of line 1226
runs before the completion check of line 1228, not inside the not-complete
branch, so the claim that a complete iteration resolves without the delay is
false. -/
theorem pdf_poll_sleeps_on_resolving_iteration_cex :
    get_pdf_download_url_for_confluence_cloud envGood 1 =
      ⟨.path (pyLit "reports/x.pdf"), 1, 1⟩ ∧
    (get_pdf_download_url_for_confluence_cloud envGood 1).sleeps ≠ 0 := by
  decide

/-- C2 (amended): every iteration whose status document yields the
positional fields (at least 9 lines) incurs the fixed 5-unit delay exactly
once, before the completion check — including the iteration that resolves;
an iteration whose document reports not complete additionally polls again,
adding one poll and one sleep to the remaining run. -/
theorem pdf_poll_sleep_unconditional_each_iteration (poll : Nat → Option PyStr)
    (i fuel : Nat) (t : PyStr) (h : poll i = some t)
    (h9 : 9 ≤ (pySplit newlineSep t).length) :
    (pollStep t).sleeps = 1 ∧
    pollLoop poll i (fuel + 1) =
      (match (pollStep t).out with
       | .resolvedPath p => ⟨.path p, 1, 1⟩
       | .resolvedFailure => ⟨.noResult, 1, 1⟩
       | .next => ⟨(pollLoop poll (i + 1) fuel).outcome,
                   (pollLoop poll (i + 1) fuel).polls + 1,
                   (pollLoop poll (i + 1) fuel).sleeps + 1⟩) := by
  have hs := pollStep_sleeps_of_len h9
  refine ⟨hs, ?_⟩
  cases hout : (pollStep t).out with
  | resolvedPath p =>
    have hfull : pollStep t = ⟨.resolvedPath p, 1⟩ := by
      rw [← hout, ← hs]
    rw [pollLoop_resolvePath fuel h hfull]
  | resolvedFailure =>
    have hfull : pollStep t = ⟨.resolvedFailure, 1⟩ := by
      rw [← hout, ← hs]
    rw [pollLoop_resolveFailure fuel h hfull]
  | next =>
    have hfull : pollStep t = ⟨.next, 1⟩ := by
      rw [← hout, ← hs]
    rw [pollLoop_next fuel h hfull]

theorem pdf_poll_sleep_unconditional_each_iteration_witness :
    (pollStep runningDoc).sleeps = 1 ∧
    pollLoop (fun _ => some runningDoc) 0 (0 + 1) =
      ⟨(pollLoop (fun _ => some runningDoc) (0 + 1) 0).outcome,
       (pollLoop (fun _ => some runningDoc) (0 + 1) 0).polls + 1,
       (pollLoop (fun _ => some runningDoc) (0 + 1) 0).sleeps + 1⟩ := by
  have h := pdf_poll_sleep_unconditional_each_iteration (fun _ => some runningDoc) 0 0
    runningDoc rfl (by decide)
  refine ⟨h.1, ?_⟩
  rw [h.2]
  decide

/-- C3, counterexample: a status document whose line 3 contains
`href=&quot;/wiki/reports/x.pdf&quot;` — after an earlier occurrence of the
`href=&quot;/wiki/` marker — makes the routine return the path extracted at
the first occurrence (`a.pdf`), not `reports/x.pdf`, so the claim as stated
is false. -/
theorem pdf_poll_href_containment_cex :
    pyLit "href=&quot;/wiki/reports/x.pdf&quot;" <:+: (pySplit newlineSep twoHrefDoc).getD 3 [] ∧
    (pySplit newlineSep twoHrefDoc).getD 8 [] = completeTrueTag ∧
    (pySplit newlineSep twoHrefDoc).getD 7 [] = successfulTrueTag ∧
    get_pdf_download_url_for_confluence_cloud envTwoHref 1 = ⟨.path (pyLit "a.pdf"), 1, 1⟩ ∧
    pyLit "a.pdf" ≠ pyLit "reports/x.pdf" := by
  decide

/-- C3 (amended): for every polled status document whose line 8 is the
complete-true tag, whose line 7 is the successful-true tag, and whose line 3
yields `reports/x.pdf` as the substring between the first occurrence of
`href=&quot;/wiki/` and the next `&quot`, the routine returns
`reports/x.pdf` (stated for an arbitrary extracted path `p`). -/
theorem pdf_poll_returns_first_extracted_path (env : PdfExportEnv) (fuel : Nat)
    (rs tid t p : PyStr) (h1 : env.initResponse = some rs)
    (h2 : extract_task_id rs = some tid)
    (hp : env.pollResponse (build_poll_url tid) 0 = some t)
    (h9 : 9 ≤ (pySplit newlineSep t).length)
    (h8 : pyStrip ((pySplit newlineSep t).getD 8 []) = completeTrueTag)
    (h7 : pyStrip ((pySplit newlineSep t).getD 7 []) = successfulTrueTag)
    (hmap : ((pySplit hrefMarker ((pySplit newlineSep t).getD 3 [])).get? 1).map
              (fun r => (pySplit quotMarker r).headD []) = some p) :
    get_pdf_download_url_for_confluence_cloud env (fuel + 1) = ⟨.path p, 1, 1⟩ := by
  rw [get_pdf_eq_pollLoop (fuel + 1) h1 h2]
  exact pollLoop_resolvePath fuel hp (pollStep_success h9 h8 h7 hmap)

theorem pdf_poll_returns_first_extracted_path_witness :
    get_pdf_download_url_for_confluence_cloud envGood 1 =
      ⟨.path (pyLit "reports/x.pdf"), 1, 1⟩ :=
  pdf_poll_returns_first_extracted_path envGood 0 initBody (pyLit "12345") goodDoc
    (pyLit "reports/x.pdf") rfl (by decide) rfl (by decide) (by decide) (by decide) (by decide)

/-- C4: for every run whose polls report not complete `n` times and then
complete-and-successful, the routine polls once per document — it is still
polling after any budget of at most `n` iterations, having issued exactly
that many polls, and with any larger budget it stops at the complete
document, having issued exactly `n + 1` polls, and returns the final
download path. -/
theorem pdf_poll_terminates_exactly_on_complete (env : PdfExportEnv) (rs tid : PyStr)
    (n : Nat) (p : PyStr) (h1 : env.initResponse = some rs)
    (h2 : extract_task_id rs = some tid)
    (hpend : ∀ k, k < n → ∃ t, env.pollResponse (build_poll_url tid) k = some t ∧
       9 ≤ (pySplit newlineSep t).length ∧
       pyStrip ((pySplit newlineSep t).getD 8 []) ≠ completeTrueTag)
    (hfin : ∃ t, env.pollResponse (build_poll_url tid) n = some t ∧
       9 ≤ (pySplit newlineSep t).length ∧
       pyStrip ((pySplit newlineSep t).getD 8 []) = completeTrueTag ∧
       pyStrip ((pySplit newlineSep t).getD 7 []) = successfulTrueTag ∧
       ((pySplit hrefMarker ((pySplit newlineSep t).getD 3 [])).get? 1).map
         (fun r => (pySplit quotMarker r).headD []) = some p) :
    (∀ fuel, fuel ≤ n →
       get_pdf_download_url_for_confluence_cloud env fuel = ⟨.stillPolling, fuel, fuel⟩) ∧
    (∀ fuel, n < fuel →
       get_pdf_download_url_for_confluence_cloud env fuel = ⟨.path p, n + 1, n + 1⟩) := by
  have hpend' : ∀ k, k < n → ∃ t, env.pollResponse (build_poll_url tid) (0 + k) = some t ∧
      pollStep t = ⟨.next, 1⟩ := by
    intro k hk
    obtain ⟨t, ht, h9, h8⟩ := hpend k hk
    rw [Nat.zero_add]
    exact ⟨t, ht, pollStep_notComplete h9 h8⟩
  have hfin' : ∃ t, env.pollResponse (build_poll_url tid) (0 + n) = some t ∧
      pollStep t = ⟨.resolvedPath p, 1⟩ := by
    obtain ⟨t, ht, h9, h8, h7, hmap⟩ := hfin
    rw [Nat.zero_add]
    exact ⟨t, ht, pollStep_success h9 h8 h7 hmap⟩
  obtain ⟨hstill, hdone⟩ := pollLoop_pending_then_complete n 0 hpend' hfin'
  constructor
  · intro fuel hf
    rw [get_pdf_eq_pollLoop fuel h1 h2]
    exact hstill fuel hf
  · intro fuel hf
    rw [get_pdf_eq_pollLoop fuel h1 h2]
    exact hdone fuel hf

theorem pdf_poll_terminates_exactly_on_complete_witness :
    get_pdf_download_url_for_confluence_cloud envRunTwice 2 = ⟨.stillPolling, 2, 2⟩ ∧
    get_pdf_download_url_for_confluence_cloud envRunTwice 3 =
      ⟨.path (pyLit "reports/x.pdf"), 3, 3⟩ := by
  have h := pdf_poll_terminates_exactly_on_complete envRunTwice initBody (pyLit "12345") 2
    (pyLit "reports/x.pdf") rfl (by decide)
    (by intro k hk
        interval_cases k <;> exact ⟨runningDoc, rfl, by decide, by decide⟩)
    ⟨goodDoc, rfl, by decide, by decide, by decide, by decide⟩
  exact ⟨h.1 2 (by omega), h.2 3 (by omega)⟩

/-- C5: for every polled status document whose line 8 is the complete-true
tag and whose line 7 is the successful-false tag, the routine returns the
terminal failure `None` without raising — one poll, one sleep, outcome
`noResult`. -/
theorem pdf_poll_server_failure_returns_none (env : PdfExportEnv) (fuel : Nat)
    (rs tid t : PyStr) (h1 : env.initResponse = some rs)
    (h2 : extract_task_id rs = some tid)
    (hp : env.pollResponse (build_poll_url tid) 0 = some t)
    (h9 : 9 ≤ (pySplit newlineSep t).length)
    (h8 : pyStrip ((pySplit newlineSep t).getD 8 []) = completeTrueTag)
    (h7 : pyStrip ((pySplit newlineSep t).getD 7 []) = successfulFalseTag) :
    get_pdf_download_url_for_confluence_cloud env (fuel + 1) = ⟨.noResult, 1, 1⟩ := by
  rw [get_pdf_eq_pollLoop (fuel + 1) h1 h2]
  exact pollLoop_resolveFailure fuel hp (pollStep_serverFailed h9 h8 h7)

theorem pdf_poll_server_failure_returns_none_witness :
    get_pdf_download_url_for_confluence_cloud envFailedDoc 1 = ⟨.noResult, 1, 1⟩ :=
  pdf_poll_server_failure_returns_none envFailedDoc 0 initBody (pyLit "12345") failedDoc
    rfl (by decide) rfl (by decide) (by decide) (by decide)

/-- C6: for every initiating response body that does not contain the marker
substring `name="ajs-taskId" content="`, the routine returns `None`
immediately and issues zero poll requests. -/
theorem pdf_poll_missing_marker_no_poll (env : PdfExportEnv) (fuel : Nat) (rs : PyStr)
    (h1 : env.initResponse = some rs) (hni : ¬ taskIdMarker <:+: rs) :
    get_pdf_download_url_for_confluence_cloud env fuel = ⟨.noResult, 0, 0⟩ := by
  have h2 := extract_task_id_of_no_occurrence hni
  simp [get_pdf_download_url_for_confluence_cloud, h1, h2]

theorem pdf_poll_missing_marker_no_poll_witness :
    get_pdf_download_url_for_confluence_cloud envNoMarker 3 = ⟨.noResult, 0, 0⟩ :=
  pdf_poll_missing_marker_no_poll envNoMarker 3 (pyLit "<html>no task here</html>")
    rfl (by decide)

/-- C7: for every polled status document that splits on newline into fewer
than 9 lines, the iteration that receives it makes the routine return the
failure result `None` (the `IndexError` of the positional reads is caught at
line 1241 rather than escaping to the caller) — stated for the loop at an
arbitrary iteration, and for the routine when the first poll returns such a
document. -/
theorem pdf_poll_short_document_returns_none :
    (∀ (poll : Nat → Option PyStr) (i fuel : Nat) (t : PyStr), poll i = some t →
       (pySplit newlineSep t).length < 9 →
       pollLoop poll i (fuel + 1) = ⟨.noResult, 1, 0⟩) ∧
    (∀ (env : PdfExportEnv) (fuel : Nat) (rs tid t : PyStr),
       env.initResponse = some rs → extract_task_id rs = some tid →
       env.pollResponse (build_poll_url tid) 0 = some t →
       (pySplit newlineSep t).length < 9 →
       get_pdf_download_url_for_confluence_cloud env (fuel + 1) = ⟨.noResult, 1, 0⟩) := by
  constructor
  · intro poll i fuel t ht hlen
    exact pollLoop_resolveFailure fuel ht (pollStep_short hlen)
  · intro env fuel rs tid t h1 h2 hp hlen
    rw [get_pdf_eq_pollLoop (fuel + 1) h1 h2]
    exact pollLoop_resolveFailure fuel hp (pollStep_short hlen)

theorem pdf_poll_short_document_returns_none_witness :
    pollLoop (fun _ => some shortDoc) 0 1 = ⟨.noResult, 1, 0⟩ ∧
    get_pdf_download_url_for_confluence_cloud envShortDoc 1 = ⟨.noResult, 1, 0⟩ :=
  ⟨pdf_poll_short_document_returns_none.1 (fun _ => some shortDoc) 0 0 shortDoc rfl (by decide),
   pdf_poll_short_document_returns_none.2 envShortDoc 0 initBody (pyLit "12345") shortDoc
     rfl (by decide) rfl (by decide)⟩

/-- C8: the poll URL is exactly `runningtaskxml.action?taskId=` followed by
the extracted task identifier, and each polled document is decided on the
positional fields of its newline split — `percentComplete` at index 6,
`isSuccessful` at index 7, `isComplete` at index 8 (with line 3 carrying the
href) — as captured by `statusDecision`; a split with fewer than 9 lines
fails the positional reads. -/
theorem pdf_poll_url_and_positional_fields :
    (∀ (env : PdfExportEnv) (fuel : Nat) (rs tid : PyStr),
       env.initResponse = some rs → extract_task_id rs = some tid →
       get_pdf_download_url_for_confluence_cloud env fuel =
         pollLoop (env.pollResponse (pyLit "runningtaskxml.action?taskId=" ++ tid)) 0 fuel) ∧
    (∀ t, 9 ≤ (pySplit newlineSep t).length →
       pollStep t = statusDecision ((pySplit newlineSep t).getD 3 [])
         (pyStrip ((pySplit newlineSep t).getD 6 []))
         (pyStrip ((pySplit newlineSep t).getD 7 []))
         (pyStrip ((pySplit newlineSep t).getD 8 []))) ∧
    (∀ t, (pySplit newlineSep t).length < 9 → pollStep t = ⟨.resolvedFailure, 0⟩) := by
  refine ⟨?_, ?_, ?_⟩
  · intro env fuel rs tid h1 h2
    rw [get_pdf_eq_pollLoop fuel h1 h2]
    rfl
  · intro t h9
    simp only [pollStep, statusDecision]
    rw [if_pos h9]
  · intro t hlen
    exact pollStep_short hlen

theorem pdf_poll_url_and_positional_fields_witness :
    get_pdf_download_url_for_confluence_cloud envGood 2 =
      pollLoop (envGood.pollResponse (pyLit "runningtaskxml.action?taskId=" ++ pyLit "12345")) 0 2 ∧
    pollStep goodDoc = statusDecision ((pySplit newlineSep goodDoc).getD 3 [])
      (pyStrip ((pySplit newlineSep goodDoc).getD 6 []))
      (pyStrip ((pySplit newlineSep goodDoc).getD 7 []))
      (pyStrip ((pySplit newlineSep goodDoc).getD 8 [])) ∧
    pollStep shortDoc = ⟨.resolvedFailure, 0⟩ :=
  ⟨pdf_poll_url_and_positional_fields.1 envGood 2 initBody (pyLit "12345") rfl (by decide),
   pdf_poll_url_and_positional_fields.2.1 goodDoc (by decide),
   pdf_poll_url_and_positional_fields.2.2 shortDoc (by decide)⟩

/-- C9: when the remote page's stored storage value, normalized when
non-empty, equals the candidate body, `update_page` issues no PUT request
and returns the page fetched by `get_page_by_id`. -/
theorem update_page_skips_write_when_content_matches (env : ConfluenceEnv)
    (page_id title body : String) (parent_id : Option String)
    (tp representation : String) (minor : Bool) (s : String)
    (h1 : storedStorageValue env page_id = some (.str s))
    (h2 : (if s = "" then s else env.normalizer s) = body) :
    update_page env page_id title body parent_id tp representation minor =
      .noWrite (env.pageById page_id) := by
  unfold storedStorageValue at h1
  cases hA : jGet (pyOr (env.pageWithStorage page_id)) "body" with
  | error e => rw [hA] at h1; simp at h1
  | ok v1 =>
    rw [hA] at h1
    dsimp only [] at h1
    cases hB : jGet (pyOr v1) "storage" with
    | error e => rw [hB] at h1; simp at h1
    | ok v2 =>
      rw [hB] at h1
      dsimp only [] at h1
      cases hC : jGet (pyOr v2) "value" with
      | error e => rw [hC] at h1; simp at h1
      | ok cc =>
        rw [hC] at h1
        simp at h1
        subst h1
        have hflag : is_page_content_is_already_updated env page_id body = .ok true := by
          unfold is_page_content_is_already_updated
          rw [hA]
          dsimp only []
          rw [hB]
          dsimp only []
          rw [hC]
          dsimp only []
          by_cases hs : s = ""
          · subst hs
            rw [if_pos rfl] at h2
            subst h2
            simp [truthy]
          · have h2' : env.normalizer s = body := by
              rwa [if_neg hs] at h2
            simp [truthy, hs, normalizeValue, h2']
        unfold update_page
        rw [hflag]

theorem update_page_skips_write_when_content_matches_witness :
    update_page cEnvSame "42" "T" "<p>hello</p>" none "page" "storage" false =
      .noWrite (cEnvSame.pageById "42") :=
  update_page_skips_write_when_content_matches cEnvSame "42" "T" "<p>hello</p>" none
    "page" "storage" false "<p>hello</p>" rfl rfl

/-- C10: a polled status document whose line 8 (stripped) is the
complete-true tag but whose line 7 (stripped) is neither the
successful-true nor the successful-false tag resolves nothing — the
iteration keeps polling — and a server that reports such documents forever
makes the routine poll and sleep once per budget unit without ever
resolving. -/
theorem pdf_poll_unknown_success_keeps_polling :
    (∀ t, 9 ≤ (pySplit newlineSep t).length →
       pyStrip ((pySplit newlineSep t).getD 8 []) = completeTrueTag →
       pyStrip ((pySplit newlineSep t).getD 7 []) ≠ successfulTrueTag →
       pyStrip ((pySplit newlineSep t).getD 7 []) ≠ successfulFalseTag →
       pollStep t = ⟨.next, 1⟩) ∧
    (∀ (env : PdfExportEnv) (rs tid : PyStr),
       env.initResponse = some rs → extract_task_id rs = some tid →
       (∀ i, ∃ t, env.pollResponse (build_poll_url tid) i = some t ∧
          9 ≤ (pySplit newlineSep t).length ∧
          pyStrip ((pySplit newlineSep t).getD 8 []) = completeTrueTag ∧
          pyStrip ((pySplit newlineSep t).getD 7 []) ≠ successfulTrueTag ∧
          pyStrip ((pySplit newlineSep t).getD 7 []) ≠ successfulFalseTag) →
       ∀ fuel, get_pdf_download_url_for_confluence_cloud env fuel =
         ⟨.stillPolling, fuel, fuel⟩) := by
  constructor
  · intro t h9 h8 h7t h7f
    exact pollStep_unknownSuccess h9 h8 h7t h7f
  · intro env rs tid h1 h2 hall fuel
    rw [get_pdf_eq_pollLoop fuel h1 h2]
    refine pollLoop_forever ?_ fuel 0
    intro i
    obtain ⟨t, ht, h9, h8, h7t, h7f⟩ := hall i
    exact ⟨t, ht, pollStep_unknownSuccess h9 h8 h7t h7f⟩

theorem pdf_poll_unknown_success_keeps_polling_witness :
    pollStep unknownDoc = ⟨.next, 1⟩ ∧
    get_pdf_download_url_for_confluence_cloud envUnknownDoc 3 = ⟨.stillPolling, 3, 3⟩ :=
  ⟨pdf_poll_unknown_success_keeps_polling.1 unknownDoc (by decide) (by decide)
     (by decide) (by decide),
   pdf_poll_unknown_success_keeps_polling.2 envUnknownDoc initBody (pyLit "12345")
     rfl (by decide)
     (fun _ => ⟨unknownDoc, rfl, by decide, by decide, by decide, by decide⟩) 3⟩

end AtlassianConfluence
